import Mathlib

/-!
Verification development for the `rcpcli` RCP client library.

The definitions below are a shallow embedding of the Rust sources:
  * `src/service.rs`  — service kinds, messages, built-in service handlers;
  * `src/client.rs`   — connection lifecycle, authentication handshake,
                        service subscription and the dispatch worker;
  * `src/error.rs`    — the client error enumeration.

Async/stateful code is embedded as explicit state passing: a `Client`'s
mutable fields become the record `ClientSt`, the transport (the external
`rcpcore::Protocol`) becomes `ProtocolSt` holding a script of read
outcomes and the list of frames written so far, and every method becomes
a pure function from state (plus the environment's responses) to a
result paired with the new state.  Machine integers (`u8`, `u16`, `u64`)
are embedded as `Nat`; the only arithmetic performed on them in the
embedded code is formatting, so no overflow modelling is needed.
-/

namespace Rcpcli

/-- Command identifiers of the external `rcpcore` crate (spec §6 lists the
subset relevant to the core).  Modelled from the spec: the crate's numeric
discriminants are not part of this repository, so distinct placeholder byte
values are assigned; no claim depends on the concrete numbers, only on the
identifiers being well-defined and distinct. -/
inductive CommandId where
  | auth
  | heartbeat
  | error
  | ack
  | streamFrame
  | displayInfo
  | launchApp
  | subscribeDisplay
  | subscribeInput
  | subscribeAudio
  | subscribeClipboard
  | subscribeFileTransfer
  | serviceSubscribe
  deriving DecidableEq

/-- The `CommandId as u8` cast: each identifier's byte value. -/
def CommandId.toByte : CommandId → Nat
  | .auth => 1
  | .heartbeat => 2
  | .error => 3
  | .ack => 4
  | .streamFrame => 5
  | .displayInfo => 6
  | .launchApp => 7
  | .subscribeDisplay => 16
  | .subscribeInput => 17
  | .subscribeAudio => 18
  | .subscribeClipboard => 19
  | .subscribeFileTransfer => 20
  | .serviceSubscribe => 21

/-- Source: `ServiceType` from `src/service.rs`: six well-known kinds plus
`Custom(u8)`; the `u8` payload is embedded as a `Nat`. -/
inductive ServiceType where
  | Display
  | Input
  | Audio
  | Clipboard
  | FileTransfer
  | App
  | Custom (id : Nat)
  deriving DecidableEq

/-- Source: `ServiceType::as_str` from `src/service.rs`. -/
def ServiceType.as_str : ServiceType → String
  | .Display => "display"
  | .Input => "input"
  | .Audio => "audio"
  | .Clipboard => "clipboard"
  | .FileTransfer => "file-transfer"
  | .App => "app"
  | .Custom _ => "custom"

/-- Source: `ServiceType::subscription_command` from `src/service.rs`: the byte
used as the subscription-request command identifier. -/
def ServiceType.subscription_command : ServiceType → Nat
  | .Display => CommandId.subscribeDisplay.toByte
  | .Input => CommandId.subscribeInput.toByte
  | .Audio => CommandId.subscribeAudio.toByte
  | .Clipboard => CommandId.subscribeClipboard.toByte
  | .FileTransfer => CommandId.subscribeFileTransfer.toByte
  | .App => CommandId.serviceSubscribe.toByte
  | .Custom id => id

/-- Rust's `str::to_lowercase`, restricted to the ASCII strings matched
in `FromStr for ServiceType`. -/
def lowerStr (s : String) : String := ⟨s.data.map Char.toLower⟩

/-- Source: `impl FromStr for ServiceType` from `src/service.rs`; the `Err(())`
case is embedded as `none`. -/
def ServiceType.fromStr (s : String) : Option ServiceType :=
  match lowerStr s with
  | "display" => some .Display
  | "input" => some .Input
  | "audio" => some .Audio
  | "clipboard" => some .Clipboard
  | "file-transfer" => some .FileTransfer
  | "app" => some .App
  | _ => none

/-- Rust `Debug` formatting of `ServiceType` (`format!("{:?}", t)`),
as produced by the derived `Debug` instance. -/
def ServiceType.debugStr : ServiceType → String
  | .Display => "Display"
  | .Input => "Input"
  | .Audio => "Audio"
  | .Clipboard => "Clipboard"
  | .FileTransfer => "FileTransfer"
  | .App => "App"
  | .Custom id => "Custom(" ++ toString id ++ ")"

/-- Source: `AuthMethod` of the external `rcpcore` crate.  Modelled from the spec
and from its uses in this repository: `PreSharedKey` is the only method
the handshake implements; `Password(username, password)` appears in
`Client::set_auth_method`; every other declared method is rejected at
handshake time ("method not implemented"). -/
inductive AuthMethod where
  | PreSharedKey
  | Password (username password : String)
  deriving DecidableEq

/-- Rust `Debug` formatting of `AuthMethod` (`format!("{:?}", m)`). -/
def AuthMethod.debugStr : AuthMethod → String
  | .PreSharedKey => "PreSharedKey"
  | .Password u p => "Password(" ++ reprStr u ++ ", " ++ reprStr p ++ ")"

/-- Source: `SessionInfo` is opaque to the core (spec §3): a server-issued record
stored on success and cleared on disconnect.  Embedded as a bare `Nat`
token standing for the opaque record. -/
abbrev SessionInfo := Nat

/-- Typed payloads carried by frames.  The Rust code moves serialized
bytes (`rcpcore::utils::to_bytes` / `from_bytes`); the embedding keeps
the typed value, and `from_bytes::<T>` succeeds exactly when the payload
is of shape `T` — any other shape is a deserialization failure, which
the `?` operator propagates as a `Core`-kind error. -/
inductive Payload where
  | raw (bytes : List Nat)
  | authPayload (clientId : Nat) (clientName : String) (method : AuthMethod)
  | authChallenge (challenge salt : List Nat)
  | authResponse (clientId : Nat) (response : List Nat)
  | sessionInfo (info : SessionInfo)
  deriving DecidableEq

/-- A framed protocol message: command identifier byte plus payload
(spec §3 `Frame`, external `rcpcore::Frame`). -/
structure Frame where
  command_id : Nat
  payload : Payload
  deriving DecidableEq

/-- The client error enumeration from `src/error.rs` (constructors not
reachable from the embedded code paths are omitted: `IO`, `Auth`,
`WebSocket`, `Serialize`, `Deserialize`, `Other`).  `Core` wraps an
error of the external `rcpcore` crate converted by `#[from]`. -/
inductive Error where
  | Connection (msg : String)
  | Authentication (msg : String)
  | Protocol (msg : String)
  | Service (msg : String)
  | Session (msg : String)
  | Timeout (msg : String)
  | Core (msg : String)
  deriving DecidableEq

/-- Source: `ClientState` from `src/client.rs`. -/
inductive ClientState where
  | Disconnected
  | Connecting
  | Connected
  | Authenticating
  | Ready
  | Closing
  deriving DecidableEq

/-- Rust `Debug` formatting of `ClientState` (`format!("{:?}", s)`). -/
def ClientState.debugStr : ClientState → String
  | .Disconnected => "Disconnected"
  | .Connecting => "Connecting"
  | .Connected => "Connected"
  | .Authenticating => "Authenticating"
  | .Ready => "Ready"
  | .Closing => "Closing"

/-- Source: `rcpcore::ConnectionState`, the protocol's mirrored diagnostic phase
marker (spec §6).  Modelled from the spec and the variants used in
`src/client.rs`. -/
inductive ConnState where
  | Connected
  | Authenticating
  | Authenticated
  | Closing
  | Closed
  deriving DecidableEq

/-- Outcome of one `Protocol::read_frame` call: `frame f` for
`Ok(Some(f))`, `closed` for `Ok(None)` (end of stream), `fail e` for
`Err(e)` (a transport/codec error carrying message `e`). -/
inductive ReadResult where
  | frame (f : Frame)
  | closed
  | fail (e : String)
  deriving DecidableEq

/-- The external `rcpcore::Protocol<TcpStream>` transport handle:
a script of pending read outcomes, the frames written so far, and the
mirrored connection-state marker. -/
structure ProtocolSt where
  reads : List ReadResult
  written : List Frame
  connState : ConnState
  deriving DecidableEq

/-- Source: `Protocol::read_frame`: consume the next scripted read outcome; an
exhausted script reads as end of stream. -/
def ProtocolSt.read (p : ProtocolSt) : ReadResult × ProtocolSt :=
  match p.reads with
  | [] => (.closed, p)
  | r :: rest => (r, { p with reads := rest })

/-- Source: `Protocol::write_frame` (the success case; frames are recorded in
order so theorems can speak about what reached the wire). -/
def ProtocolSt.write (p : ProtocolSt) (f : Frame) : ProtocolSt :=
  { p with written := p.written ++ [f] }

/-- Source: `ServiceMessage` from `src/service.rs`: message id (`Uuid` embedded
as `Nat`), the frame, and the optional one-shot response channel
(embedded as the channel's identifier). -/
structure ServiceMessage where
  id : Nat
  frame : Frame
  response_tx : Option Nat
  deriving DecidableEq

/-- Source: `impl Clone for ServiceMessage` from `src/service.rs`: the clone
keeps id and frame but drops the response channel (`response_tx: None`,
"Can't clone the oneshot sender"). -/
def ServiceMessage.clone (m : ServiceMessage) : ServiceMessage :=
  { id := m.id, frame := m.frame, response_tx := none }

/-- Source: `ServiceClient` from `src/service.rs`: the cloneable handle wrapping
the send side of the worker's message queue; `tx` is the queue's
identifier, so two handles share the same underlying queue exactly when
their `tx` fields are equal.  Rust's `Clone` copies all three fields, so
a clone is embedded as the record itself. -/
structure ServiceClient where
  service_type : ServiceType
  service_name : String
  tx : Nat
  deriving DecidableEq

/-- The five built-in service implementations produced by
`ServiceFactory::create` in `src/service.rs`. -/
inductive ServiceImpl where
  | display
  | input
  | clipboard
  | fileTransfer
  | app
  deriving DecidableEq

/-- Source: `ServiceFactory::create` from `src/service.rs`: `Audio` and
`Custom(_)` fall to the `_ => None` arm. -/
def ServiceFactory.create : ServiceType → Option ServiceImpl
  | .Display => some .display
  | .Input => some .input
  | .Clipboard => some .clipboard
  | .FileTransfer => some .fileTransfer
  | .App => some .app
  | _ => none

/-- The `Ack` response frame built by the handlers:
`Frame::new(CommandId::Ack as u8, Vec::new())`. -/
def ackFrame : Frame := ⟨CommandId.ack.toByte, .raw []⟩

/-- The `Error` response frame built by the handlers:
`Frame::new(CommandId::Error as u8, b"Unknown command".to_vec())`. -/
def unknownCommandFrame : Frame :=
  ⟨CommandId.error.toByte, .raw ("Unknown command".data.map Char.toNat)⟩

/-- Source: `handle_message` of the built-in services in `src/service.rs`,
returning the list of (channel, frame) pairs sent on response channels.
Every built-in handler returns `Ok(())`, so only the sends are modelled:
* Display: `DisplayInfo` → Ack on the channel if present; `StreamFrame`
  → no response; anything else → Error frame on the channel if present.
* Input, Clipboard, FileTransfer: unconditional Ack if a channel is
  present.
* App: `LaunchApp` → Ack; anything else → Error frame. -/
def ServiceImpl.handle : ServiceImpl → ServiceMessage → List (Nat × Frame)
  | .display, m =>
    if m.frame.command_id = CommandId.displayInfo.toByte then
      match m.response_tx with
      | some ch => [(ch, ackFrame)]
      | none => []
    else if m.frame.command_id = CommandId.streamFrame.toByte then []
    else
      match m.response_tx with
      | some ch => [(ch, unknownCommandFrame)]
      | none => []
  | .input, m | .clipboard, m | .fileTransfer, m =>
    match m.response_tx with
    | some ch => [(ch, ackFrame)]
    | none => []
  | .app, m =>
    if m.frame.command_id = CommandId.launchApp.toByte then
      match m.response_tx with
      | some ch => [(ch, ackFrame)]
      | none => []
    else
      match m.response_tx with
      | some ch => [(ch, unknownCommandFrame)]
      | none => []

/-- One loop iteration of the Service Dispatch Worker spawned in
`Client::subscribe_service` (`src/client.rs`), acting on a dequeued
message: the phase is checked first (`break` if not `Ready`), then the
message's CLONE is delivered to the service's handler, then the
message's frame is written back to the transport. -/
inductive WorkerStep where
  | exit
  | stepped (delivered : ServiceMessage) (responses : List (Nat × Frame)) (outbound : Frame)
  deriving DecidableEq

/-- The worker's processing of one dequeued `ServiceMessage` from
`src/client.rs` lines 564–584 (`rx.recv()` loop body). -/
def workerStep (phase : ClientState) (svc : ServiceImpl) (msg : ServiceMessage) : WorkerStep :=
  if phase ≠ .Ready then .exit
  else
    let delivered := msg.clone
    let responses := svc.handle delivered
    .stepped delivered responses msg.frame

/-- Source: `ClientConfig` from `src/client.rs` (fields the embedded methods
read; `Uuid` embedded as `Nat`). -/
structure ClientConfig where
  host : String
  port : Nat
  client_name : String
  client_id : Option Nat
  auth_method : AuthMethod
  auth_psk : Option String
  connection_timeout_secs : Nat
  deriving DecidableEq

/-- The mutable fields of `Client` (`src/client.rs`): phase, session
info, transport handle, and the service registry (the `HashMap` embedded
as an association list).  `nextQueue` supplies fresh queue identifiers
for the `mpsc::channel` created per subscription. -/
structure ClientSt where
  state : ClientState
  session_info : Option SessionInfo
  protocol : Option ProtocolSt
  services : List (ServiceType × ServiceClient)
  nextQueue : Nat
  deriving DecidableEq

/-- Source: `Client::new`: initial state (`Disconnected`, nothing stored). -/
def ClientSt.new : ClientSt :=
  { state := .Disconnected, session_info := none, protocol := none
    services := [], nextQueue := 0 }

/-- Registry lookup (`services.contains_key` / `services[&k]`). -/
def lookupService : List (ServiceType × ServiceClient) → ServiceType → Option ServiceClient
  | [], _ => none
  | (k, v) :: rest, t => if k = t then some v else lookupService rest t

/-- Registry insert (`services.insert(k, v)`). -/
def insertService (m : List (ServiceType × ServiceClient)) (t : ServiceType)
    (v : ServiceClient) : List (ServiceType × ServiceClient) :=
  (t, v) :: (m.filter fun kv => kv.1 ≠ t)

/-- Source: `Auth::compute_psk_response` of the external crypto collaborator.
Modelled from the spec (§6): a deterministic pure function of
(psk, challenge, salt); the concrete bytes are irrelevant to every
claim, so a simple injective combination stands in. -/
def compute_psk_response (psk : String) (challenge salt : List Nat) : List Nat :=
  psk.data.map Char.toNat ++ challenge ++ salt

/-- Outcome of the transport dial inside `Client::connect`:
`TcpStream::connect` under `time::timeout`. -/
inductive DialResult where
  | ok
  | ioErr (e : String)
  | timeout
  deriving DecidableEq

/-- Source: `Client::connect` from `src/client.rs`.  `dial` is the environment's
outcome for the dial; `script` is the read script the fresh transport
will answer with.  Returns the call's result and the new client state. -/
def Client.connect (cfg : ClientConfig) (dial : DialResult) (script : List ReadResult)
    (st : ClientSt) : Except Error Unit × ClientSt :=
  if st.state ≠ .Disconnected then
    (.error (.Connection "Already connected or connecting"), st)
  else
    let st := { st with state := .Connecting }
    match dial with
    | .ioErr e =>
      (.error (.Connection ("Failed to connect: " ++ e)), { st with state := .Disconnected })
    | .timeout =>
      (.error (.Timeout ("Connection timeout after "
          ++ toString cfg.connection_timeout_secs ++ " seconds")),
        { st with state := .Disconnected })
    | .ok =>
      let p : ProtocolSt := { reads := script, written := [], connState := .Connected }
      (.ok (), { st with state := .Connected, protocol := some p })

/-- Source: `Client::authenticate` from `src/client.rs`.  Failure paths mirror
the source exactly, in particular the `?` propagations: a `read_frame`
`Err`, a serialization failure, or a deserialization failure propagate
WITHOUT touching `self.state` (the state was already set to
`Authenticating` by then), whereas the explicitly handled cases set the
state to `Connected` (protocol-level failure) or `Disconnected`
(transport closure). -/
def Client.authenticate (cfg : ClientConfig) (st : ClientSt) : Except Error Unit × ClientSt :=
  if st.state ≠ .Connected then
    (.error (.Authentication ("Cannot authenticate in state " ++ st.state.debugStr)), st)
  else
    let st := { st with state := .Authenticating }
    match st.protocol with
    | none => (.error (.Connection "Not connected"), { st with state := .Disconnected })
    | some p =>
      let p := { p with connState := .Authenticating }
      let authFrame : Frame :=
        ⟨CommandId.auth.toByte,
          .authPayload (cfg.client_id.getD 0) cfg.client_name cfg.auth_method⟩
      let p := p.write authFrame
      match p.read with
      | (.fail e, p) => (.error (.Core e), { st with protocol := some p })
      | (.closed, p) =>
        (.error (.Connection "Connection closed during authentication"),
          { st with state := .Disconnected, protocol := some p })
      | (.frame f, p) =>
        if f.command_id ≠ CommandId.auth.toByte then
          (.error (.Authentication "Expected AUTH challenge"),
            { st with state := .Connected, protocol := some p })
        else
          match f.payload with
          | .authChallenge challenge salt =>
            match cfg.auth_method with
            | .PreSharedKey =>
              match cfg.auth_psk with
              | none =>
                (.error (.Authentication "PSK not configured"),
                  { st with state := .Connected, protocol := some p })
              | some psk =>
                let respFrame : Frame :=
                  ⟨CommandId.auth.toByte,
                    .authResponse (cfg.client_id.getD 0)
                      (compute_psk_response psk challenge salt)⟩
                let p := p.write respFrame
                match p.read with
                | (.fail e, p) => (.error (.Core e), { st with protocol := some p })
                | (.closed, p) =>
                  (.error (.Connection "Connection closed during authentication"),
                    { st with state := .Disconnected, protocol := some p })
                | (.frame f2, p) =>
                  if f2.command_id ≠ CommandId.auth.toByte then
                    (.error (.Authentication "Expected session info"),
                      { st with state := .Connected, protocol := some p })
                  else
                    match f2.payload with
                    | .sessionInfo info =>
                      let p := { p with connState := .Authenticated }
                      (.ok (),
                        { st with
                            state := .Ready
                            session_info := some info
                            protocol := some p })
                    | _ => (.error (.Core "failed to deserialize SessionInfo"),
                        { st with protocol := some p })
            | m =>
              (.error (.Authentication ("Authentication method " ++ m.debugStr
                  ++ " not implemented")),
                { st with state := .Connected, protocol := some p })
          | _ => (.error (.Core "failed to deserialize AuthChallenge"),
              { st with protocol := some p })

/-- Source: `Client::start` from `src/client.rs`: the state guard plus whether
the Inbound Frame Router task was spawned. -/
def Client.start (st : ClientSt) : Except Error Unit × Bool :=
  if st.state ≠ .Ready then
    (.error (.Session ("Cannot start in state " ++ st.state.debugStr)), false)
  else
    (.ok (), true)

/-- Source: `Client::subscribe_service` from `src/client.rs`.  Returns the
call's result, the new client state, and whether a new Service Dispatch
Worker task was spawned.  Source order: registry check (early return of
a clone of the stored handle), state guard, factory, subscription-frame
write, channel creation, registry insert, worker spawn. -/
def Client.subscribe_service (t : ServiceType) (st : ClientSt) :
    Except Error ServiceClient × ClientSt × Bool :=
  match lookupService st.services t with
  | some h => (.ok h, st, false)
  | none =>
    if st.state ≠ .Ready then
      (.error (.Session ("Cannot subscribe to service in state " ++ st.state.debugStr)),
        st, false)
    else
      match ServiceFactory.create t with
      | none =>
        (.error (.Service ("Service " ++ t.debugStr ++ " not implemented")), st, false)
      | some _ =>
        let frame : Frame := ⟨t.subscription_command, .raw (t.as_str.data.map Char.toNat)⟩
        match st.protocol with
        | none => (.error (.Connection "Not connected"), st, false)
        | some p =>
          let p := p.write frame
          let client : ServiceClient := ⟨t, t.as_str, st.nextQueue⟩
          (.ok client,
            { st with
                protocol := some p
                services := insertService st.services t client
                nextQueue := st.nextQueue + 1 },
            true)

/-- Source: `Client::session_info` from `src/client.rs`. -/
def Client.session_info (st : ClientSt) : Option SessionInfo :=
  st.session_info

/-- Source: `Client::disconnect` from `src/client.rs`: early success when
already `Disconnected`; otherwise set `Closing`, clear the registry,
close and drop the transport (best effort), clear session info, set
`Disconnected`.  The grace-period sleep is a no-op in the sequential
embedding. -/
def Client.disconnect (st : ClientSt) : Except Error Unit × ClientSt :=
  if st.state = .Disconnected then
    (.ok (), st)
  else
    let st := { st with state := .Closing }
    let st := { st with services := [] }
    let st := { st with protocol := none }
    let st := { st with session_info := none }
    (.ok (), { st with state := .Disconnected })

/-- A client state in phase `Connected` whose transport will answer with
the given read script; the remaining fields are arbitrary.  Used to
state handshake theorems. -/
def connectedSt (script : List ReadResult) (si : Option SessionInfo)
    (w : List Frame) (cs : ConnState)
    (svcs : List (ServiceType × ServiceClient)) (nq : Nat) : ClientSt :=
  { state := .Connected, session_info := si
    protocol := some { reads := script, written := w, connState := cs }
    services := svcs, nextQueue := nq }

/-- A sample configuration: the pre-shared-key method with a key set. -/
def sampleCfg : ClientConfig :=
  { host := "localhost", port := 8717, client_name := "RCP Client"
    client_id := some 0, auth_method := .PreSharedKey
    auth_psk := some "secret", connection_timeout_secs := 10 }

/-- Concrete failing input for claim C1: phase `Connected`, transport
present, and the read of the expected challenge frame fails with a
transport error. -/
def c1FailSt : ClientSt :=
  connectedSt [.fail "connection reset by peer"] none [] .Connected [] 0

/-- A `DisplayInfo` frame with empty payload. -/
def displayInfoFrame : Frame := ⟨CommandId.displayInfo.toByte, .raw []⟩

/-- Concrete failing input for claim C2: an envelope carrying a
recognized command (`DisplayInfo`) and a response channel (id 5). -/
def displayRequest : ServiceMessage := ⟨0, displayInfoFrame, some 5⟩

/-- The handle stored in the registry in the sample states below. -/
def displayHandle : ServiceClient := ⟨.Display, "display", 0⟩

/-- A `Ready` client with the Display service already subscribed. -/
def readySt : ClientSt :=
  { state := .Ready, session_info := some 7
    protocol := some { reads := [], written := [], connState := .Authenticated }
    services := [(.Display, displayHandle)], nextQueue := 1 }

/-- A client whose router observed a connection failure after a Display
subscription: phase back to `Disconnected`, but the registry still holds
the stale handle (only `disconnect()` clears the registry). -/
def staleSt : ClientSt :=
  { state := .Disconnected, session_info := none, protocol := none
    services := [(.Display, displayHandle)], nextQueue := 1 }

end Rcpcli

namespace Rcpcli

/-- Claim C1 (code bug witness): an execution of `authenticate()` that
returns an error yet leaves the phase at `Authenticating`.  Starting in
phase `Connected` with a live transport, the read of the expected
challenge frame returns a transport error; `Client::authenticate`
propagates it with `?` without any state transition, so the call
returns an error while the phase — set to `Authenticating` at entry —
is neither `Connected` nor `Disconnected`, contradicting the claim that
every error return lands in a defined post-failure phase of §4.1. -/
theorem c1_transport_read_error_leaves_phase_authenticating :
    (Client.authenticate sampleCfg c1FailSt).1 = .error (.Core "connection reset by peer")
    ∧ ((Client.authenticate sampleCfg c1FailSt).2).state = .Authenticating
    ∧ ClientState.Authenticating ≠ .Connected
    ∧ ClientState.Authenticating ≠ .Disconnected :=
  ⟨rfl, rfl, by decide, by decide⟩

/-- Claim C2 (code bug witness): the Service Dispatch Worker dequeues an
envelope that carries a response channel (id 5) and a recognized command
(`DisplayInfo`) while the phase is `Ready`, yet no response is ever sent
on the channel: the worker delivers `msg.clone()`, and `Clone for
ServiceMessage` drops the one-shot sender (`response_tx: None`), so the
handler's Ack branch sees no channel (first conjunct: the delivered
envelope has `response_tx = none` and the response list is empty).  The
second conjunct shows the handler applied to the original envelope would
have fulfilled channel 5 with an Ack frame, which is what the claim
(and spec §4.4) promises. -/
theorem c2_worker_clone_drops_response_channel :
    workerStep .Ready .display displayRequest
      = .stepped ⟨0, displayInfoFrame, none⟩ [] displayInfoFrame
    ∧ ServiceImpl.handle .display displayRequest = [(5, ackFrame)] :=
  ⟨rfl, rfl⟩

/-- Claim C3: handshake failure modes and their phase transitions, for
any configuration and any client in phase `Connected` with a live
transport.  (1) A non-Auth frame where the challenge is expected fails
with `Authentication "Expected AUTH challenge"` and phase `Connected`;
(2) closure there fails with a `Connection` error and phase
`Disconnected`; (3) a non-Auth frame where session info is expected
fails with `Authentication "Expected session info"` and phase
`Connected`; (4) closure there fails with the `Connection` error and
phase `Disconnected`; (5) a declared method other than pre-shared-key
fails with `Authentication "... not implemented"` and phase
`Connected`; (6) a missing PSK fails with
`Authentication "PSK not configured"` and phase `Connected`. -/
theorem c3_handshake_failure_transitions (cfg : ClientConfig)
    (si : Option SessionInfo) (w : List Frame) (cs : ConnState)
    (svcs : List (ServiceType × ServiceClient)) (nq : Nat) :
    (∀ f rest, f.command_id ≠ CommandId.auth.toByte →
      (Client.authenticate cfg (connectedSt (.frame f :: rest) si w cs svcs nq)).1
          = .error (.Authentication "Expected AUTH challenge")
        ∧ ((Client.authenticate cfg (connectedSt (.frame f :: rest) si w cs svcs nq)).2).state
          = .Connected)
    ∧ (∀ rest,
      (Client.authenticate cfg (connectedSt (.closed :: rest) si w cs svcs nq)).1
          = .error (.Connection "Connection closed during authentication")
        ∧ ((Client.authenticate cfg (connectedSt (.closed :: rest) si w cs svcs nq)).2).state
          = .Disconnected)
    ∧ (∀ ch salt g rest psk, cfg.auth_method = .PreSharedKey → cfg.auth_psk = some psk →
      g.command_id ≠ CommandId.auth.toByte →
      (Client.authenticate cfg (connectedSt
          (.frame ⟨CommandId.auth.toByte, .authChallenge ch salt⟩ :: .frame g :: rest)
          si w cs svcs nq)).1
          = .error (.Authentication "Expected session info")
        ∧ ((Client.authenticate cfg (connectedSt
          (.frame ⟨CommandId.auth.toByte, .authChallenge ch salt⟩ :: .frame g :: rest)
          si w cs svcs nq)).2).state = .Connected)
    ∧ (∀ ch salt rest psk, cfg.auth_method = .PreSharedKey → cfg.auth_psk = some psk →
      (Client.authenticate cfg (connectedSt
          (.frame ⟨CommandId.auth.toByte, .authChallenge ch salt⟩ :: .closed :: rest)
          si w cs svcs nq)).1
          = .error (.Connection "Connection closed during authentication")
        ∧ ((Client.authenticate cfg (connectedSt
          (.frame ⟨CommandId.auth.toByte, .authChallenge ch salt⟩ :: .closed :: rest)
          si w cs svcs nq)).2).state = .Disconnected)
    ∧ (∀ ch salt rest u pw, cfg.auth_method = .Password u pw →
      (Client.authenticate cfg (connectedSt
          (.frame ⟨CommandId.auth.toByte, .authChallenge ch salt⟩ :: rest)
          si w cs svcs nq)).1
          = .error (.Authentication ("Authentication method "
              ++ (AuthMethod.Password u pw).debugStr ++ " not implemented"))
        ∧ ((Client.authenticate cfg (connectedSt
          (.frame ⟨CommandId.auth.toByte, .authChallenge ch salt⟩ :: rest)
          si w cs svcs nq)).2).state = .Connected)
    ∧ (∀ ch salt rest, cfg.auth_method = .PreSharedKey → cfg.auth_psk = none →
      (Client.authenticate cfg (connectedSt
          (.frame ⟨CommandId.auth.toByte, .authChallenge ch salt⟩ :: rest)
          si w cs svcs nq)).1
          = .error (.Authentication "PSK not configured")
        ∧ ((Client.authenticate cfg (connectedSt
          (.frame ⟨CommandId.auth.toByte, .authChallenge ch salt⟩ :: rest)
          si w cs svcs nq)).2).state = .Connected) := by
  refine ⟨?_, ?_, ?_, ?_, ?_, ?_⟩
  · intro f rest hne
    constructor <;>
      simp [Client.authenticate, connectedSt, ProtocolSt.read, ProtocolSt.write, hne]
  · intro rest
    constructor <;>
      simp [Client.authenticate, connectedSt, ProtocolSt.read, ProtocolSt.write]
  · intro ch salt g rest psk hm hpsk hne
    have hne' : g.command_id ≠ 1 := hne
    constructor <;>
      simp [Client.authenticate, connectedSt, ProtocolSt.read, ProtocolSt.write,
        CommandId.toByte, hm, hpsk, hne']
  · intro ch salt rest psk hm hpsk
    constructor <;>
      simp [Client.authenticate, connectedSt, ProtocolSt.read, ProtocolSt.write,
        CommandId.toByte, hm, hpsk]
  · intro ch salt rest u pw hm
    constructor <;>
      simp [Client.authenticate, connectedSt, ProtocolSt.read, ProtocolSt.write,
        CommandId.toByte, hm]
  · intro ch salt rest hm hpsk
    constructor <;>
      simp [Client.authenticate, connectedSt, ProtocolSt.read, ProtocolSt.write,
        CommandId.toByte, hm, hpsk]

/-- Claim C3 witness: the theorem instantiated at the sample
configuration — a heartbeat frame arriving where the challenge is
expected yields the `Authentication "Expected AUTH challenge"` error. -/
theorem c3_witness :
    (Client.authenticate sampleCfg
        (connectedSt [.frame ⟨CommandId.heartbeat.toByte, .raw []⟩] none [] .Connected [] 0)).1
      = .error (.Authentication "Expected AUTH challenge") :=
  ((c3_handshake_failure_transitions sampleCfg none [] .Connected [] 0).1
    ⟨CommandId.heartbeat.toByte, .raw []⟩ [] (by decide)).1

/-- Claim C4: subscription is idempotent.  When `kind` already has a
live handle in the registry, `subscribe_service` returns that handle (a
clone in Rust, sharing the `tx` send side of the same underlying
queue), leaves the client state — including the transport's list of
written frames — unchanged (so no second subscription-request frame is
written), and spawns no second worker. -/
theorem c4_subscribe_idempotent (t : ServiceType) (st : ClientSt) (h : ServiceClient)
    (hreg : lookupService st.services t = some h) :
    Client.subscribe_service t st = (.ok h, st, false) := by
  simp [Client.subscribe_service, hreg]

/-- Claim C4 witness: resubscribing `Display` on a `Ready` client that
already holds a Display handle returns that very handle, unchanged
state, no worker. -/
theorem c4_witness :
    Client.subscribe_service .Display readySt = (.ok displayHandle, readySt, false) :=
  c4_subscribe_idempotent .Display readySt displayHandle rfl

/-- Claim C5 counterexample: the claim quantifies over EVERY phase other
than `Ready`, but `subscribe_service` checks the registry before the
phase guard.  In the reachable state `staleSt` (phase `Disconnected`,
registry still holding a Display handle — e.g. after the router observed
a connection error, which resets the phase but not the registry),
`subscribe_service(Display)` returns `Ok` instead of the Session-kind
error the claim requires. -/
theorem c5_counterexample :
    staleSt.state = .Disconnected
    ∧ (Client.subscribe_service .Display staleSt).1 = .ok displayHandle :=
  ⟨rfl, rfl⟩

/-- Claim C5 as amended: for every service kind with NO live handle in
the registry and every phase other than `Ready`, `subscribe_service`
fails with a Session-kind error naming the current phase; and `start()`
outside `Ready` always fails with a Session-kind error naming the
current phase. -/
theorem c5_amended_outside_ready (t : ServiceType) (st st' : ClientSt)
    (hreg : lookupService st.services t = none) (hst : st.state ≠ .Ready)
    (hst' : st'.state ≠ .Ready) :
    (Client.subscribe_service t st).1
      = .error (.Session ("Cannot subscribe to service in state " ++ st.state.debugStr))
    ∧ (Client.start st').1
      = .error (.Session ("Cannot start in state " ++ st'.state.debugStr)) := by
  constructor
  · simp [Client.subscribe_service, hreg, hst]
  · simp [Client.start, hst']

/-- Claim C5 witness: a fresh (hence `Disconnected`) client refuses both
`subscribe_service(Input)` and `start()` with Session errors naming the
phase. -/
theorem c5_witness :
    (Client.subscribe_service .Input ClientSt.new).1
      = .error (.Session "Cannot subscribe to service in state Disconnected")
    ∧ (Client.start ClientSt.new).1
      = .error (.Session "Cannot start in state Disconnected") :=
  c5_amended_outside_ready .Input ClientSt.new ClientSt.new rfl (by decide) (by decide)

/-- Claim C6: from phase `Disconnected`, a dial timeout yields a
Timeout-kind error, a dial I/O failure yields a Connection-kind error (a
distinct constructor of `Error`), and in both cases the phase is
`Disconnected` when `connect()` returns. -/
theorem c6_dial_failure_kinds (cfg : ClientConfig) (script : List ReadResult)
    (e : String) (st : ClientSt) (hst : st.state = .Disconnected) :
    (Client.connect cfg .timeout script st).1
      = .error (.Timeout ("Connection timeout after "
          ++ toString cfg.connection_timeout_secs ++ " seconds"))
    ∧ ((Client.connect cfg .timeout script st).2).state = .Disconnected
    ∧ (Client.connect cfg (.ioErr e) script st).1
      = .error (.Connection ("Failed to connect: " ++ e))
    ∧ ((Client.connect cfg (.ioErr e) script st).2).state = .Disconnected
    ∧ (∀ a b, Error.Timeout a ≠ Error.Connection b) := by
  refine ⟨?_, ?_, ?_, ?_, fun a b hab => Error.noConfusion hab⟩ <;>
    simp [Client.connect, hst]

/-- Claim C6 witness: a fresh client dialing into a timeout reports the
Timeout error naming the configured 10-second budget. -/
theorem c6_witness :
    (Client.connect sampleCfg .timeout [] ClientSt.new).1
      = .error (.Timeout "Connection timeout after 10 seconds") :=
  (c6_dial_failure_kinds sampleCfg [] "refused" ClientSt.new rfl).1

/-- Claim C7: `disconnect()` on an already-`Disconnected` client returns
success and changes nothing; from any other phase it returns success
and afterwards `session_info()` is absent, the service registry is
empty, and the phase is `Disconnected`. -/
theorem c7_disconnect_teardown (st : ClientSt) :
    (st.state = .Disconnected → Client.disconnect st = (.ok (), st))
    ∧ (st.state ≠ .Disconnected →
        (Client.disconnect st).1 = .ok ()
        ∧ Client.session_info (Client.disconnect st).2 = none
        ∧ ((Client.disconnect st).2).services = []
        ∧ ((Client.disconnect st).2).state = .Disconnected) := by
  constructor
  · intro h
    simp [Client.disconnect, h]
  · intro h
    refine ⟨?_, ?_, ?_, ?_⟩ <;> simp [Client.disconnect, Client.session_info, h]

/-- Claim C7 witness: the no-op branch on a fresh client and the full
teardown on a `Ready` client with a subscription and session info. -/
theorem c7_witness :
    Client.disconnect ClientSt.new = (.ok (), ClientSt.new)
    ∧ ((Client.disconnect readySt).1 = .ok ()
        ∧ Client.session_info (Client.disconnect readySt).2 = none
        ∧ ((Client.disconnect readySt).2).services = []
        ∧ ((Client.disconnect readySt).2).state = .Disconnected) :=
  ⟨(c7_disconnect_teardown ClientSt.new).1 rfl,
    (c7_disconnect_teardown readySt).2 (by decide)⟩

/-- Claim C8: `connect()` in any phase other than `Disconnected` fails
with the Connection-kind error "Already connected or connecting" and
leaves the whole client state unchanged, whatever the dial would have
done. -/
theorem c8_connect_guard (cfg : ClientConfig) (dial : DialResult)
    (script : List ReadResult) (st : ClientSt) (hst : st.state ≠ .Disconnected) :
    Client.connect cfg dial script st
      = (.error (.Connection "Already connected or connecting"), st) := by
  simp [Client.connect, hst]

/-- Claim C8 witness: a second `connect()` after a successful first one
(client in phase `Ready`) fails with the Connection error and the state
is untouched. -/
theorem c8_witness :
    Client.connect sampleCfg .ok [] readySt
      = (.error (.Connection "Already connected or connecting"), readySt) :=
  c8_connect_guard sampleCfg .ok [] readySt (by decide)

/-- Claim C9: the service-kind mapping is total — every `ServiceType`
(the six built-in kinds and every `Custom id`) maps to exactly one
subscription command identifier and exactly one name string — and for
every non-Custom kind the name string round-trips through the
name-to-kind lookup. -/
theorem c9_service_kind_mapping (t : ServiceType) :
    (∃! c, t.subscription_command = c)
    ∧ (∃! s, t.as_str = s)
    ∧ ((∀ id, t ≠ .Custom id) → ServiceType.fromStr t.as_str = some t) := by
  refine ⟨⟨t.subscription_command, rfl, fun y hy => hy.symm⟩,
    ⟨t.as_str, rfl, fun y hy => hy.symm⟩, ?_⟩
  intro hb
  cases t <;> first | rfl | exact absurd rfl (hb _)

/-- Claim C9 witness: `FileTransfer`'s name string "file-transfer"
parses back to `FileTransfer`. -/
theorem c9_witness :
    ServiceType.fromStr (ServiceType.as_str .FileTransfer) = some .FileTransfer :=
  (c9_service_kind_mapping .FileTransfer).2.2 (fun _ h => ServiceType.noConfusion h)

/-- Claim C10: a first-time `subscribe_service(Audio)` (no live Audio
handle in the registry) never succeeds in any phase; when the phase is
`Ready` it fails with the Service-kind error
"Service Audio not implemented", exactly as `Custom(id)` kinds do,
because the factory produces implementations precisely for Display,
Input, Clipboard, FileTransfer and App. -/
theorem c10_audio_not_implemented (st : ClientSt)
    (hreg : lookupService st.services .Audio = none) :
    (∃ e, (Client.subscribe_service .Audio st).1 = .error e)
    ∧ (st.state = .Ready →
        (Client.subscribe_service .Audio st).1
          = .error (.Service "Service Audio not implemented"))
    ∧ ServiceFactory.create .Audio = none
    ∧ (∀ id, ServiceFactory.create (.Custom id) = none)
    ∧ (∀ u : ServiceType, (ServiceFactory.create u).isSome = true
        ↔ (u = .Display ∨ u = .Input ∨ u = .Clipboard ∨ u = .FileTransfer ∨ u = .App)) := by
  refine ⟨?_, ?_, rfl, fun id => rfl, fun u => ?_⟩
  · by_cases hs : st.state = .Ready
    · refine ⟨.Service "Service Audio not implemented", ?_⟩
      simp only [Client.subscribe_service, hreg, hs, ServiceFactory.create]
      rfl
    · exact ⟨.Session ("Cannot subscribe to service in state " ++ st.state.debugStr),
        by simp [Client.subscribe_service, hreg, hs]⟩
  · intro hs
    simp only [Client.subscribe_service, hreg, hs, ServiceFactory.create]
    rfl
  · cases u <;> simp [ServiceFactory.create]

/-- Claim C10 witness: on a `Ready` client with no Audio subscription,
`subscribe_service(Audio)` fails with the Service-kind
"not implemented" error. -/
theorem c10_witness :
    (Client.subscribe_service .Audio readySt).1
      = .error (.Service "Service Audio not implemented") :=
  (c10_audio_not_implemented readySt rfl).2.1 rfl

end Rcpcli
